import Mathlib

/-!
Shallow embedding of the `threadpool` crate (`src/lib.rs`): a worker-thread
pool with a recovery guard (`Sentinel`) that respawns a worker whose job
panicked, a capacity-checked worker loop, and a resizable target capacity.

Machine integers (`usize`) are modelled as `Nat` with explicit wrap-around
modulo `2 ^ 64` at the arithmetic operations where overflow matters.
Fallible operations (`assert!`, `unwrap` on `send`) are modelled with
`Option` / `Except`.  The worker loop is modelled as a fuel-indexed pure
function over an explicit pool state, emitting a trace of the events the
loop body performs (lock acquisitions, counter updates, job execution) in
source order.
-/

/-- Width of `usize` on the 64-bit targets the crate runs on: `2 ^ 64`,
written as a numeral so that linear arithmetic can compute with it. -/
def USIZE : Nat := 18446744073709551616

/-- Wrapping `usize` addition, as performed by `+= ` on the counter. -/
def usizeAdd (a b : Nat) : Nat := (a + b) % USIZE

/-- Wrapping `usize` subtraction, as performed by `-=` on the counter
(release semantics: subtraction below zero wraps, i.e. underflows). -/
def usizeSub (a b : Nat) : Nat := (a + (USIZE - b % USIZE)) % USIZE

/-- A job (`Thunk<'static>`): an opaque unit of work.  The model keeps an
identifier and whether executing the job panics (unwinds). -/
structure Job where
  id : Nat
  panics : Bool
deriving DecidableEq

/-- Identities of the three `Arc`-wrapped shared objects a worker holds:
the job receiver (`Arc<Mutex<Receiver<Thunk>>>`), the active counter
(`Arc<RwLock<usize>>`) and the max counter (`Arc<Mutex<usize>>`).
`clone()` of an `Arc` yields a reference to the same object, hence the
same identifier. -/
structure SharedRefs where
  jobs : Nat
  threadCounter : Nat
  threadCountMax : Nat
deriving DecidableEq

/-- The `Sentinel` recovery guard: name tag, references to the shared pool
state, and the `active` flag that arms it. -/
structure Sentinel where
  name : Option String
  refs : SharedRefs
  active : Bool
deriving DecidableEq

/-- `Sentinel::new`: a freshly constructed sentinel is armed. -/
def Sentinel.new (name : Option String) (refs : SharedRefs) : Sentinel :=
  ⟨name, refs, true⟩

/-- `Sentinel::cancel`: disarm the sentinel. -/
def Sentinel.cancel (s : Sentinel) : Sentinel := { s with active := false }

/-- A request to `spawn_in_pool`: the name tag and the shared-state
references the new worker is given. -/
structure SpawnRequest where
  name : Option String
  refs : SharedRefs
deriving DecidableEq

/-- `impl Drop for Sentinel`: if still armed, decrement the active counter
(wrapping `usize` subtraction) and spawn one replacement worker with the
sentinel's own name and references; if cancelled, do nothing.  Returns the
new counter value and the list of spawn requests issued. -/
def Sentinel.drop (s : Sentinel) (counter : Nat) : Nat × List SpawnRequest :=
  if s.active then
    (usizeSub counter 1, [⟨s.name, s.refs⟩])
  else
    (counter, [])

/-- The shared pool state observed by a single worker: the two counters,
the pending job queue (FIFO), and whether any `Sender` is still alive
(when none is, `recv` returns a disconnect error). -/
structure PoolSt where
  activeCount : Nat
  maxCount : Nat
  queue : List Job
  senderAlive : Bool
deriving DecidableEq

/-- Result of one `recv` on the shared receiver. -/
inductive RecvMsg where
  | ok (j : Job)
  | err
deriving DecidableEq

/-- `Receiver::recv` against the modelled queue: a pending job is handed
out FIFO; an empty queue with all senders dropped yields the disconnect
error; an empty queue with a live sender blocks (`none`). -/
def tryRecv (queue : List Job) (senderAlive : Bool) : Option (RecvMsg × List Job) :=
  match queue with
  | j :: rest => some (.ok j, rest)
  | [] => if senderAlive then none else some (.err, [])

/-- Observable events of the worker-loop body, in source order. -/
inductive Event where
  | readActive (v : Nat)
  | readMax (v : Nat)
  | lockJobs
  | recvOk (jobId : Nat)
  | recvErr
  | unlockJobs
  | incrActive
  | execStart (jobId : Nat)
  | execEnd (jobId : Nat)
  | decrActive
  | cancelGuard
deriving DecidableEq

/-- How a worker's loop ends (or fails to end within the given fuel). -/
inductive LoopExit where
  | retired
  | shutdown
  | panicked
  | blocked
  | fuelOut
deriving DecidableEq

/-- Outcome of one iteration of the worker loop body. -/
inductive IterResult where
  | looped (st : PoolSt) (tr : List Event)
  | exited (st : PoolSt) (ex : LoopExit) (tr : List Event)
deriving DecidableEq

/-- One iteration of the loop body in `spawn_in_pool`, translated from the
source: read the active counter, read the max counter (two separate lock
acquisitions); if `active < max`, lock the receiver just long enough to
`recv` one message and release it; on a job, increment the counter, run
the job, decrement the counter, and loop; on a disconnect error, break; if
`active >= max`, break.  `poisoned = true` models the `unwrap()` on the
counter lock panicking because the lock is poisoned: the iteration
unwinds before any read or increment — and the same poisoning then makes
the armed sentinel's drop abort the process (see `workerThread`). -/
def loopIter (poisoned : Bool) (st : PoolSt) : IterResult :=
  if poisoned then
    .exited st .panicked []
  else
    let a := st.activeCount
    let m := st.maxCount
    let tr0 : List Event := [.readActive a, .readMax m]
    if a < m then
      match tryRecv st.queue st.senderAlive with
      | none => .exited st .blocked (tr0 ++ [.lockJobs])
      | some (.err, q1) =>
          .exited { st with queue := q1 } .shutdown
            (tr0 ++ [.lockJobs, .recvErr, .unlockJobs])
      | some (.ok j, q1) =>
          let c1 := usizeAdd st.activeCount 1
          if j.panics then
            .exited { st with activeCount := c1, queue := q1 } .panicked
              (tr0 ++ [.lockJobs, .recvOk j.id, .unlockJobs, .incrActive,
                       .execStart j.id])
          else
            .looped { st with activeCount := usizeSub c1 1, queue := q1 }
              (tr0 ++ [.lockJobs, .recvOk j.id, .unlockJobs, .incrActive,
                       .execStart j.id, .execEnd j.id, .decrActive])
    else
      .exited st .retired tr0

/-- The worker loop of `spawn_in_pool`, iterated with fuel.  Returns the
final pool state, the concatenated event trace, and how the loop ended. -/
def workerLoop : Nat → Bool → PoolSt → PoolSt × List Event × LoopExit
  | 0, _, st => (st, [], .fuelOut)
  | Nat.succ fuel, poisoned, st =>
      match loopIter poisoned st with
      | .looped st1 tr =>
          match workerLoop fuel poisoned st1 with
          | (st2, tr2, ex) => (st2, tr ++ tr2, ex)
      | .exited st1 ex tr => (st1, tr, ex)

/-- How a worker thread's whole execution ends: as its loop ended, except
that a panic unwinding out of the loop drops the armed sentinel, and when
the counter lock is poisoned that drop's own `write().unwrap()` panics as
well — a panic inside a destructor during unwind, which aborts the
process (`aborted`). -/
inductive ThreadExit where
  | retired
  | shutdown
  | panicked
  | blocked
  | fuelOut
  | aborted
deriving DecidableEq

/-- The full result of running one worker thread. -/
structure ThreadRun where
  state : PoolSt
  trace : List Event
  spawns : List SpawnRequest
  exit : ThreadExit
deriving DecidableEq

/-- The closure spawned by `spawn_in_pool`: construct an armed sentinel,
run the worker loop, and on normal exit cancel the sentinel before it is
dropped.  If the loop unwinds because a job panicked, the sentinel is
dropped still armed and the counter lock is healthy, so its cleanup
decrements the counter and issues one respawn.  If the loop unwound
because the counter lock was poisoned, the armed drop's own
`write().unwrap()` on that same poisoned lock panics during the unwind —
a panic inside a destructor — so the process aborts with no decrement and
no respawn.  On a normal break the cancelled sentinel's drop does
nothing.  A blocked or out-of-fuel run is still inside the loop, so the
sentinel is not dropped. -/
def workerThread (fuel : Nat) (name : Option String) (refs : SharedRefs)
    (poisoned : Bool) (st : PoolSt) : ThreadRun :=
  let sentinel := Sentinel.new name refs
  match workerLoop fuel poisoned st with
  | (st1, tr, .panicked) =>
      if poisoned then
        ⟨st1, tr, [], .aborted⟩
      else
        let d := Sentinel.drop sentinel st1.activeCount
        ⟨{ st1 with activeCount := d.1 }, tr, d.2, .panicked⟩
  | (st1, tr, .retired) =>
      let d := Sentinel.drop (Sentinel.cancel sentinel) st1.activeCount
      ⟨{ st1 with activeCount := d.1 }, tr ++ [.cancelGuard], d.2, .retired⟩
  | (st1, tr, .shutdown) =>
      let d := Sentinel.drop (Sentinel.cancel sentinel) st1.activeCount
      ⟨{ st1 with activeCount := d.1 }, tr ++ [.cancelGuard], d.2, .shutdown⟩
  | (st1, tr, .blocked) => ⟨st1, tr, [], .blocked⟩
  | (st1, tr, .fuelOut) => ⟨st1, tr, [], .fuelOut⟩

/-- The cloneable `ThreadPool` handle: name tag plus references to the
shared state (`job_receiver`, `active_count`, `max_count`). -/
structure ThreadPool where
  name : Option String
  refs : SharedRefs
deriving DecidableEq

/-- `ThreadPool::new_pool`: `assert!(threads >= 1)` (modelled as `none` on
failure, issued before any state is constructed), then create the channel,
the counters (`active_count = 0`, `max_count = threads`) and spawn
`threads` workers, each given the name tag and clones of the same three
shared references.  Returns the handle, the initial shared state, and the
spawn requests issued. -/
def new_pool (name : Option String) (threads : Nat) :
    Option (ThreadPool × PoolSt × List SpawnRequest) :=
  if 1 ≤ threads then
    let refs : SharedRefs := ⟨0, 1, 2⟩
    let st : PoolSt := ⟨0, threads, [], true⟩
    some (⟨name, refs⟩, st, List.replicate threads ⟨name, refs⟩)
  else
    none

/-- `ThreadPool::new`. -/
def ThreadPool.mkNew (threads : Nat) : Option (ThreadPool × PoolSt × List SpawnRequest) :=
  new_pool none threads

/-- `ThreadPool::new_with_name`. -/
def ThreadPool.new_with_name (name : String) (threads : Nat) :
    Option (ThreadPool × PoolSt × List SpawnRequest) :=
  new_pool (some name) threads

/-- `ThreadPool::active_count`: read the active counter. -/
def active_count (st : PoolSt) : Nat := st.activeCount

/-- `ThreadPool::max_count`: read the target capacity. -/
def max_count (st : PoolSt) : Nat := st.maxCount

/-- `ThreadPool::set_threads`: `assert!(threads >= 1)` (modelled as `none`,
issued before any mutation), read the previous target, overwrite
`max_count`, and if the new target strictly exceeds the previous one spawn
`threads - current_max` new workers with the handle's name and shared
references.  Nothing else of the handle or the state is touched. -/
def set_threads (p : ThreadPool) (st : PoolSt) (threads : Nat) :
    Option (ThreadPool × PoolSt × List SpawnRequest) :=
  if 1 ≤ threads then
    let current_max := st.maxCount
    let st1 := { st with maxCount := threads }
    if current_max < threads then
      some (p, st1, List.replicate (threads - current_max) ⟨p.name, p.refs⟩)
    else
      some (p, st1, [])
  else
    none

/-- Live owners of the receiver object: each `ThreadPool` handle clone
holds one `Arc<Mutex<Receiver>>`, and each live worker holds one. -/
structure OwnershipSt where
  numHandles : Nat
  numWorkers : Nat
deriving DecidableEq

/-- Reference count of the shared receiver: the receiver is destroyed
exactly when this reaches zero. -/
def receiverRefCount (o : OwnershipSt) : Nat := o.numHandles + o.numWorkers

/-- `Sender::send`: fails precisely when the receiver has been destroyed
(reference count zero); otherwise appends the job to the queue. -/
def sendJob (recvRefs : Nat) (queue : List Job) (j : Job) :
    Except Unit (List Job) :=
  if recvRefs = 0 then .error () else .ok (queue ++ [j])

/-- `ThreadPool::execute`: `self.jobs.send(job).unwrap()` — the `unwrap`
panics (modelled as `none`) exactly when the send fails. -/
def execute (recvRefs : Nat) (st : PoolSt) (j : Job) : Option PoolSt :=
  match sendJob recvRefs st.queue j with
  | .ok q => some { st with queue := q }
  | .error _ => none

/-! ### Helper lemmas -/

/-- Incrementing and then wrap-decrementing the counter returns it to its
value reduced modulo the word size. -/
lemma usize_add_one_sub_one (a : Nat) : usizeSub (usizeAdd a 1) 1 = a % USIZE := by
  unfold usizeSub usizeAdd USIZE
  omega

/-- Wrap-decrement of a positive in-range counter is plain subtraction. -/
lemma usize_sub_one_of_pos (c : Nat) (h1 : 1 ≤ c) (h2 : c < USIZE) :
    usizeSub c 1 = c - 1 := by
  unfold usizeSub USIZE at *
  omega

/-- Wrap-decrement of zero underflows to the largest `usize`. -/
lemma usize_sub_one_zero : usizeSub 0 1 = USIZE - 1 := by
  unfold usizeSub USIZE
  omega

/-- The poisoned-lock iteration unwinds immediately: no events, no reads,
no counter change. -/
lemma loopIter_poisoned (st : PoolSt) : loopIter true st = .exited st .panicked [] := by
  simp [loopIter]

/-- Capacity-check failure: with `active = max + k` the iteration performs
only the two reads and breaks with `retired`, leaving the state intact. -/
lemma loopIter_retire (q : List Job) (sa : Bool) (m k : Nat) :
    loopIter false ⟨m + k, m, q, sa⟩
      = .exited ⟨m + k, m, q, sa⟩ .retired [.readActive (m + k), .readMax m] := by
  unfold loopIter
  simp only [Bool.false_eq_true, if_false]
  rw [if_neg (by omega)]

/-- Under capacity with a panicking job at the head of the queue: the
iteration unwinds after the increment and the start of execution, with no
matching decrement. -/
lemma loopIter_job_panic (a k : Nat) (jid : Nat) (q : List Job) (sa : Bool) :
    loopIter false ⟨a, a + k + 1, ⟨jid, true⟩ :: q, sa⟩
      = .exited ⟨usizeAdd a 1, a + k + 1, q, sa⟩ .panicked
          [.readActive a, .readMax (a + k + 1), .lockJobs, .recvOk jid,
           .unlockJobs, .incrActive, .execStart jid] := by
  unfold loopIter
  simp only [Bool.false_eq_true, if_false]
  rw [if_pos (by omega)]
  rfl

/-- Unfolding `workerLoop` when the first iteration exits the loop. -/
lemma workerLoop_exited (fuel : Nat) (poisoned : Bool) (st st1 : PoolSt)
    (ex : LoopExit) (tr : List Event)
    (h : loopIter poisoned st = .exited st1 ex tr) :
    workerLoop (fuel + 1) poisoned st = (st1, tr, ex) := by
  simp [workerLoop, h]

/-- When the worker loop unwinds because a job panicked (healthy counter
lock), the sentinel is dropped still armed: the counter is
wrap-decremented by one and exactly one respawn request with the worker's
own name and references is issued. -/
lemma workerThread_of_panicked (fuel : Nat) (name : Option String)
    (refs : SharedRefs) (st st1 : PoolSt) (tr : List Event)
    (h : workerLoop fuel false st = (st1, tr, .panicked)) :
    workerThread fuel name refs false st
      = ⟨{ st1 with activeCount := usizeSub st1.activeCount 1 }, tr,
         [⟨name, refs⟩], .panicked⟩ := by
  simp [workerThread, h, Sentinel.drop, Sentinel.new]

/-- When the worker loop unwinds because the counter lock is poisoned, the
armed sentinel's drop panics on the same poisoned lock during the unwind
and the process aborts: no decrement, no respawn. -/
lemma workerThread_abort (fuel : Nat) (name : Option String)
    (refs : SharedRefs) (st st1 : PoolSt) (tr : List Event)
    (h : workerLoop fuel true st = (st1, tr, .panicked)) :
    workerThread fuel name refs true st = ⟨st1, tr, [], .aborted⟩ := by
  simp [workerThread, h]

/-- When the worker loop breaks at the capacity check, the sentinel is
cancelled first, so its drop neither decrements nor respawns. -/
lemma workerThread_of_retired (fuel : Nat) (name : Option String)
    (refs : SharedRefs) (poisoned : Bool) (st st1 : PoolSt) (tr : List Event)
    (h : workerLoop fuel poisoned st = (st1, tr, .retired)) :
    workerThread fuel name refs poisoned st
      = ⟨st1, tr ++ [.cancelGuard], [], .retired⟩ := by
  simp [workerThread, h, Sentinel.drop, Sentinel.cancel, Sentinel.new]

/-- When the worker loop breaks on the disconnect signal, the sentinel is
cancelled first, so its drop neither decrements nor respawns. -/
lemma workerThread_of_shutdown (fuel : Nat) (name : Option String)
    (refs : SharedRefs) (poisoned : Bool) (st st1 : PoolSt) (tr : List Event)
    (h : workerLoop fuel poisoned st = (st1, tr, .shutdown)) :
    workerThread fuel name refs poisoned st
      = ⟨st1, tr ++ [.cancelGuard], [], .shutdown⟩ := by
  simp [workerThread, h, Sentinel.drop, Sentinel.cancel, Sentinel.new]

/-! ### Claim theorems -/

/-- Claim C1: while the recovery guard (`Sentinel`) is armed, its drop
decrements `active_count` by exactly one and spawns exactly one
replacement worker carrying the same name tag and the same shared-state
references; after `cancel` it performs neither.  Accordingly a worker
whose loop breaks normally at the capacity check retires with no respawn
and no decrement, while a worker whose job panics unwinds with the guard
armed, which restores the counter (increment then guard decrement) and
issues exactly one respawn request with the same name and references. -/
theorem c1_recovery_guard (name : Option String) (refs : SharedRefs) (c : Nat)
    (hc : 1 ≤ c) (hcU : c < USIZE) :
    Sentinel.drop (Sentinel.new name refs) c = (c - 1, [⟨name, refs⟩]) ∧
    Sentinel.drop (Sentinel.cancel (Sentinel.new name refs)) c = (c, []) ∧
    (∀ fuel q sa m k,
      workerThread (fuel + 1) name refs false ⟨m + k, m, q, sa⟩
        = ⟨⟨m + k, m, q, sa⟩, [.readActive (m + k), .readMax m, .cancelGuard],
           [], .retired⟩) ∧
    (∀ fuel a k jid q sa,
      workerThread (fuel + 1) name refs false ⟨a, a + k + 1, ⟨jid, true⟩ :: q, sa⟩
        = ⟨⟨a % USIZE, a + k + 1, q, sa⟩,
           [.readActive a, .readMax (a + k + 1), .lockJobs, .recvOk jid,
            .unlockJobs, .incrActive, .execStart jid],
           [⟨name, refs⟩], .panicked⟩) := by
  refine ⟨?_, ?_, ?_, ?_⟩
  · simp [Sentinel.drop, Sentinel.new, usize_sub_one_of_pos c hc hcU]
  · simp [Sentinel.drop, Sentinel.cancel, Sentinel.new]
  · intro fuel q sa m k
    have h1 := loopIter_retire q sa m k
    have h2 := workerLoop_exited fuel false _ _ _ _ h1
    rw [workerThread_of_retired _ _ _ _ _ _ _ h2]
    rfl
  · intro fuel a k jid q sa
    have h1 := loopIter_job_panic a k jid q sa
    have h2 := workerLoop_exited fuel false _ _ _ _ h1
    rw [workerThread_of_panicked _ _ _ _ _ _ h2]
    simp [usize_add_one_sub_one]

/-- Witness for C1 at `c = 1`: the armed guard's drop takes the counter
from `1` to `0` and issues one respawn with the same name and refs. -/
theorem c1_recovery_guard_witness :
    Sentinel.drop (Sentinel.new (some "w") ⟨0, 1, 2⟩) 1
      = (0, [⟨some "w", ⟨0, 1, 2⟩⟩]) :=
  (c1_recovery_guard (some "w") ⟨0, 1, 2⟩ 1 (by decide) (by decide)).1

/-- Claim C3: `new_pool name (n+1)` succeeds and yields a handle over the
shared state with `max_count = n+1`, `active_count = 0` and an empty
queue, issuing exactly `n+1` identical spawn requests (same name, same
receiver and counter references); `new_pool name 0` fails the assertion. -/
theorem c3_create (name : Option String) (n : Nat) :
    new_pool name (n + 1)
      = some (⟨name, ⟨0, 1, 2⟩⟩, ⟨0, n + 1, [], true⟩,
              List.replicate (n + 1) ⟨name, ⟨0, 1, 2⟩⟩) ∧
    max_count ⟨0, n + 1, [], true⟩ = n + 1 ∧
    active_count ⟨0, n + 1, [], true⟩ = 0 ∧
    (List.replicate (n + 1) (⟨name, ⟨0, 1, 2⟩⟩ : SpawnRequest)).length = n + 1 ∧
    new_pool name 0 = none := by
  refine ⟨?_, rfl, rfl, ?_, rfl⟩
  · unfold new_pool
    rw [if_pos (by omega)]
  · simp

/-- Claim C4: growing `set_threads` from target `m` to `m + k + 1` updates
`max_count` and immediately issues exactly `k + 1` spawn requests, each
carrying the handle's name tag and shared references; `set_threads 0`
fails the assertion. -/
theorem c4_resize_grow (p : ThreadPool) (a m k : Nat) (q : List Job)
    (sa : Bool) :
    set_threads p ⟨a, m, q, sa⟩ (m + k + 1)
      = some (p, ⟨a, m + k + 1, q, sa⟩,
              List.replicate (k + 1) ⟨p.name, p.refs⟩) ∧
    set_threads p ⟨a, m, q, sa⟩ 0 = none := by
  constructor
  · unfold set_threads
    rw [if_pos (show 1 ≤ m + k + 1 by omega),
        if_pos (show (⟨a, m, q, sa⟩ : PoolSt).maxCount < m + k + 1 from by
          show m < m + k + 1
          omega)]
    have hsub : m + k + 1 - m = k + 1 := by omega
    show some (p, _, List.replicate (m + k + 1 - m) _) = _
    rw [hsub]
  · rfl

/-- Claim C5: shrinking `set_threads` from target `n + k + 2` down to
`n + 1` only rewrites `max_count`: no spawn request is issued and the
handle (name tag included), the active counter, the queue and the sender
flag are all returned unchanged. -/
theorem c5_resize_shrink_frame (p : ThreadPool) (a n k : Nat) (q : List Job)
    (sa : Bool) :
    set_threads p ⟨a, n + k + 2, q, sa⟩ (n + 1)
      = some (p, ⟨a, n + 1, q, sa⟩, []) := by
  unfold set_threads
  rw [if_pos (show 1 ≤ n + 1 by omega),
      if_neg (show ¬ (⟨a, n + k + 2, q, sa⟩ : PoolSt).maxCount < n + 1 from by
        show ¬ n + k + 2 < n + 1
        omega)]

/-- Claim C6: `execute` never fails while a pool handle is alive: a live
handle contributes one reference to the receiver, so the reference count
is nonzero, the send succeeds, and the job is appended to the queue; the
send (and hence the unwrapped `execute`) can fail only when the receiver
reference count is zero. -/
theorem c6_execute_never_fails (h w : Nat) (st : PoolSt) (j : Job) :
    execute (receiverRefCount ⟨h + 1, w⟩) st j
      = some { st with queue := st.queue ++ [j] } ∧
    receiverRefCount ⟨h + 1, w⟩ = h + 1 + w ∧
    1 ≤ receiverRefCount ⟨h + 1, w⟩ ∧
    (∀ q jj, sendJob 0 q jj = .error ()) := by
  refine ⟨?_, rfl, by show 1 ≤ h + 1 + w; omega, fun q jj => rfl⟩
  unfold execute sendJob receiverRefCount
  rw [if_neg (show ¬ h + 1 + w = 0 by omega)]

/-- Claim C7: the name tag is preserved by every spawn path: the initial
`new_pool` spawns, growth spawns from `set_threads`, the armed sentinel's
replacement spawn, and every spawn request a worker run ever issues all
carry exactly the name the pool (resp. worker) was given. -/
theorem c7_name_propagation :
    (∀ name n,
      (new_pool name (n + 1)).map (fun r => r.2.2.map SpawnRequest.name)
        = some (List.replicate (n + 1) name)) ∧
    (∀ p a m k q sa,
      (set_threads p ⟨a, m, q, sa⟩ (m + k + 1)).map
          (fun r => r.2.2.map SpawnRequest.name)
        = some (List.replicate (k + 1) p.name)) ∧
    (∀ name refs c,
      (Sentinel.drop (Sentinel.new name refs) c).2.map SpawnRequest.name
        = [name]) ∧
    (∀ fuel name refs poisoned st,
      (workerThread fuel name refs poisoned st).spawns.map SpawnRequest.name
        = List.replicate (workerThread fuel name refs poisoned st).spawns.length
            name) := by
  refine ⟨?_, ?_, ?_, ?_⟩
  · intro name n
    unfold new_pool
    rw [if_pos (show 1 ≤ n + 1 by omega)]
    simp
  · intro p a m k q sa
    unfold set_threads
    rw [if_pos (show 1 ≤ m + k + 1 by omega),
        if_pos (show (⟨a, m, q, sa⟩ : PoolSt).maxCount < m + k + 1 from by
          show m < m + k + 1
          omega)]
    simp [show m + k + 1 - m = k + 1 from by omega]
  · intro name refs c
    simp [Sentinel.drop, Sentinel.new]
  · intro fuel name refs poisoned st
    rcases h : workerLoop fuel poisoned st with ⟨st1, tr, ex⟩
    cases ex
    · rw [workerThread_of_retired _ _ _ _ _ _ _ h]
      rfl
    · rw [workerThread_of_shutdown _ _ _ _ _ _ _ h]
      rfl
    · cases poisoned
      · rw [workerThread_of_panicked _ _ _ _ _ _ h]
        rfl
      · rw [workerThread_abort _ _ _ _ _ _ h]
        rfl
    · simp [workerThread, h]
    · simp [workerThread, h]

/-- Claim C8: `new_pool` and `set_threads` both assert `threads >= 1`
before touching any state: with argument `0` each returns no state at all,
each succeeds exactly when the argument is at least `1`, and every
successful call leaves `max_count` equal to its (positive) argument — so
`max_count >= 1` is maintained by every operation that completes. -/
theorem c8_zero_threads_fatal :
    (∀ name, new_pool name 0 = none) ∧
    (∀ p st, set_threads p st 0 = none) ∧
    (∀ name n, (new_pool name n).isSome = decide (1 ≤ n)) ∧
    (∀ p st n, (set_threads p st n).isSome = decide (1 ≤ n)) ∧
    (∀ name n,
      (new_pool name (n + 1)).map (fun r => max_count r.2.1) = some (n + 1)) ∧
    (∀ p a m q sa n,
      (set_threads p ⟨a, m, q, sa⟩ (n + 1)).map (fun r => max_count r.2.1)
        = some (n + 1)) := by
  refine ⟨fun name => rfl, fun p st => rfl, ?_, ?_, ?_, ?_⟩
  · intro name n
    unfold new_pool
    by_cases hn : 1 ≤ n
    · rw [if_pos hn]
      simp [hn]
    · rw [if_neg hn]
      simp [hn]
  · intro p st n
    by_cases hn : 1 ≤ n
    · by_cases hc : st.maxCount < n
      · simp [set_threads, hn, hc]
      · simp [set_threads, hn, hc]
    · simp [set_threads, hn]
  · intro name n
    unfold new_pool
    rw [if_pos (show 1 ≤ n + 1 by omega)]
    rfl
  · intro p a m q sa n
    by_cases hc : m < n + 1
    · simp [set_threads, hc, max_count, show (1 : Nat) ≤ n + 1 from by omega]
    · simp [set_threads, hc, max_count, show (1 : Nat) ≤ n + 1 from by omega]

/-- Counterexample to claim C9 as stated: at a pre-increment panic (the
`unwrap` on the poisoned counter lock during the capacity check, with
`active_count = 0`) the armed sentinel's drop hits the same poisoned lock,
panics during the unwind, and the process aborts — the state is returned
untouched, the counter is neither decremented nor underflowed to
`USIZE - 1`, and no replacement is spawned. -/
theorem c9_counterexample :
    workerThread 1 none ⟨0, 1, 2⟩ true ⟨0, 5, [], true⟩
      = ⟨⟨0, 5, [], true⟩, [], [], .aborted⟩ ∧
    ¬ (workerThread 1 none ⟨0, 1, 2⟩ true ⟨0, 5, [], true⟩).state.activeCount
        = USIZE - 1 ∧
    ¬ (workerThread 1 none ⟨0, 1, 2⟩ true ⟨0, 5, [], true⟩).spawns.length
        = 1 := by
  refine ⟨rfl, by decide, by decide⟩

/-- Claim C9 (amended): `Sentinel::drop` itself tests nothing about the
matching increment — whenever it runs armed with a healthy counter lock it
wrap-decrements for every counter value and issues one respawn.  But a
panic occurring before the increment (the poisoned counter lock at the
capacity check) never reaches that decrement: the drop's own
`write().unwrap()` on the same poisoned lock panics during the unwind and
the process aborts with no decrement and no respawn.  On the one reachable
armed-drop path — a job panic after the increment — the drop returns the
counter to its pre-increment value, so no underflow at
`active_count = 0` occurs in any execution. -/
theorem c9_amended_guard_decrement :
    (∀ name refs c,
      Sentinel.drop (Sentinel.new name refs) c
        = (usizeSub c 1, [⟨name, refs⟩])) ∧
    (∀ fuel name refs st,
      workerThread (fuel + 1) name refs true st = ⟨st, [], [], .aborted⟩) ∧
    (∀ fuel name refs a k jid q sa,
      workerThread (fuel + 1) name refs false ⟨a, a + k + 1, ⟨jid, true⟩ :: q, sa⟩
        = ⟨⟨a % USIZE, a + k + 1, q, sa⟩,
           [.readActive a, .readMax (a + k + 1), .lockJobs, .recvOk jid,
            .unlockJobs, .incrActive, .execStart jid],
           [⟨name, refs⟩], .panicked⟩) ∧
    (∀ a, usizeSub (usizeAdd a 1) 1 = a % USIZE) := by
  refine ⟨?_, ?_, ?_, usize_add_one_sub_one⟩
  · intro name refs c
    simp [Sentinel.drop, Sentinel.new]
  · intro fuel name refs st
    have h2 := workerLoop_exited fuel true st st .panicked [] (loopIter_poisoned st)
    rw [workerThread_abort _ _ _ _ _ _ h2]
  · intro fuel name refs a k jid q sa
    have h1 := loopIter_job_panic a k jid q sa
    have h2 := workerLoop_exited fuel false _ _ _ _ h1
    rw [workerThread_of_panicked _ _ _ _ _ _ h2]
    simp [usize_add_one_sub_one]

/-- Claim C10: `set_threads` with the current target is a no-op apart from
rewriting `max_count` to the same value: the state and handle come back
unchanged, `max_count` still reads the same target, and no spawn request
is issued (spawns happen only on a strict increase). -/
theorem c10_resize_same_noop (p : ThreadPool) (a m : Nat) (q : List Job)
    (sa : Bool) :
    set_threads p ⟨a, m + 1, q, sa⟩ (m + 1)
      = some (p, ⟨a, m + 1, q, sa⟩, []) ∧
    (set_threads p ⟨a, m + 1, q, sa⟩ (m + 1)).map (fun r => max_count r.2.1)
      = some (m + 1) := by
  have h : set_threads p ⟨a, m + 1, q, sa⟩ (m + 1)
      = some (p, ⟨a, m + 1, q, sa⟩, []) := by
    unfold set_threads
    rw [if_pos (show 1 ≤ m + 1 by omega),
        if_neg (show ¬ (⟨a, m + 1, q, sa⟩ : PoolSt).maxCount < m + 1 from by
          show ¬ m + 1 < m + 1
          omega)]
  exact ⟨h, by rw [h]; rfl⟩
